import Mathlib

/-!
Verification of the authentication core of the CollaborationGames backend
(`app/api/auth/jwt.py`, `app/api/auth/router.py`) against its specification.

The Python code is shallowly embedded: the SQLAlchemy user table becomes a
`List User`, the request-scoped session becomes explicit state passing
(`List User` in, `List User` out), raised `HTTPException`s become the
`Except HTTPError` error channel, and injected infrastructure faults
(persistence commit failures, lookup failures) become explicit boolean /
option parameters, since the spec's claims quantify over their occurrence.

External collaborators that are not part of this repository are modelled at
the contract level used by the code:
  * python-jose `jwt.encode` / `jwt.decode` (signing library): a token is the
    signed payload together with the secret and algorithm it was signed with;
    decode succeeds exactly when secret and algorithm match and the `exp`
    claim has not passed (jose raises `ExpiredSignatureError`, a `JWTError`,
    when `exp < now`).
  * the password hasher (`app/core/security.py`, outside the core source):
    passed as an abstract `hash` / `verify` function parameter.
  * Python built-ins `int(str)` and `str(int)`: modelled by `pyInt?` and
    `pyStrInt` below (ASCII decimal with optional sign, surrounding
    whitespace and digit-group underscores, as CPython accepts).
-/

/-- Process-wide configuration (`app/core/config.py` settings consumed by the
auth core). Times are in seconds; `ACCESS_TOKEN_EXPIRE_MINUTES` is in minutes
as in the source. -/
structure Settings where
  SECRET_KEY : String
  ALGORITHM : String
  ACCESS_TOKEN_EXPIRE_MINUTES : Int
deriving DecidableEq, Repr

/-- A row of the `users` table, restricted to the columns the auth core reads
or writes (`app/api/users/models.py` User as used by `jwt.py`/`router.py`).
`last_login_at` is nullable; times are absolute seconds. -/
structure User where
  user_id : Int
  name : String
  password : String
  categories : String
  point_total : Int
  last_login_at : Option Int
deriving DecidableEq, Repr

/-- A JSON value that can sit in the `sub` claim: the decoded payload's
subject may arrive as a string or as a number (`payload.get("sub")` is
dynamically typed). -/
inductive SubjectValue where
  | str (s : String)
  | num (n : Int)
deriving DecidableEq, Repr

/-- The claim set carried by an issued token: `{sub: ..., exp: ...}`.
`create_access_token` always sets `exp`; `sub` is whatever the caller put in
`data` (`none` models a `data` dict with no `"sub"` key). -/
structure TokenPayload where
  sub : Option SubjectValue
  exp : Int
deriving DecidableEq, Repr

/-- A signed JWT, modelled as its payload plus the secret and algorithm it was
signed with; signature verification is modelled as equality of these with the
verifier's secret and algorithm. -/
structure SignedToken where
  payload : TokenPayload
  secret : String
  alg : String
deriving DecidableEq, Repr

/-- An `HTTPException` as raised by the auth core: status code, detail string,
and whether the `WWW-Authenticate: Bearer` challenge header was attached. -/
structure HTTPError where
  status_code : Nat
  detail : String
  wwwAuthenticate : Bool
deriving DecidableEq, Repr

/-- The success response body shared by `/auth/token`, `/auth/login` and
`/auth/register` (schema `Token`): access token, literal token type, and the
user's identity key and display name. -/
structure TokenResponse where
  access_token : SignedToken
  token_type : String
  user_id : Int
  user_name : String
deriving DecidableEq, Repr

/-- Characters stripped by CPython's `int(str)` around the number
(ASCII whitespace). -/
def isPySpace (c : Char) : Bool :=
  c = ' ' || c = '\t' || c = '\n' || c = '\r' || c = '\x0b' || c = '\x0c'

/-- Strip leading and trailing whitespace, as `int(str)` does before parsing. -/
def pyStrip (l : List Char) : List Char :=
  ((l.dropWhile isPySpace).reverse.dropWhile isPySpace).reverse

/-- Accumulating digit scan for `int(str)`: consumes ASCII digits, allowing a
single underscore between two digits (CPython digit grouping); anything else
is a parse failure. -/
def pyIntLoop (acc : Nat) : List Char → Option Nat
  | [] => some acc
  | c :: cs =>
    if c.isDigit then pyIntLoop (acc * 10 + (c.toNat - 48)) cs
    else if c = '_' then
      match cs with
      | [] => none
      | d :: cs' =>
        if d.isDigit then pyIntLoop (acc * 10 + (d.toNat - 48)) cs' else none
    else none

/-- Parse an unsigned digit run (first character must be a digit). -/
def pyIntDigits : List Char → Option Nat
  | [] => none
  | c :: cs => if c.isDigit then pyIntLoop (c.toNat - 48) cs else none

/-- Optional sign followed by a digit run, the body of `int(str)` after
whitespace stripping. -/
def pySignParse : List Char → Option Int
  | [] => none
  | c :: rest =>
    if c = '+' then (pyIntDigits rest).map Int.ofNat
    else if c = '-' then (pyIntDigits rest).map (fun m => -Int.ofNat m)
    else (pyIntDigits (c :: rest)).map Int.ofNat

/-- Model of CPython `int(s)` on a string: strip whitespace, optional sign,
then a digit run; `none` models the `ValueError` branch. -/
def pyInt? (s : String) : Option Int :=
  pySignParse (pyStrip s.data)

/-- Decimal digit list of a natural number, most significant first
(the characters of CPython `str(n)` for `n : Nat`). -/
def natDecimal (n : Nat) : List Char :=
  if h : n < 10 then [Char.ofNat (48 + n)]
  else natDecimal (n / 10) ++ [Char.ofNat (48 + n % 10)]
decreasing_by exact Nat.div_lt_self (by omega) (by omega)

/-- Model of CPython `str(k)` for an integer `k`: decimal digits with a
leading minus sign when negative. -/
def pyStrInt (k : Int) : String :=
  match k with
  | Int.ofNat n => ⟨natDecimal n⟩
  | Int.negSucc m => ⟨'-' :: natDecimal (m + 1)⟩

/-- Model of python-jose `jwt.decode(token, secret, algorithms=[alg])` at time
`now`: verification succeeds exactly when the token was signed with the same
secret and algorithm and its `exp` claim has not passed (`none` models a
raised `JWTError`, including `ExpiredSignatureError` for `exp < now`). -/
def jwt_decode (tok : SignedToken) (secret alg : String) (now : Int) :
    Option TokenPayload :=
  if tok.secret = secret && tok.alg = alg && decide (now ≤ tok.payload.exp)
  then some tok.payload else none

/-- Truthiness of an optional `timedelta` argument, as tested by
`if expires_delta:` — `None` and `timedelta(0)` are falsy, every other
duration is truthy. -/
def timedeltaTruthy : Option Int → Bool
  | none => false
  | some d => d != 0

/-- Embedding of `create_access_token(data, expires_delta)` from
`app/api/auth/jwt.py` lines 113–134, at current time `now`. The `data` dict
is represented by its (only used) `"sub"` entry. `expire` is `now` plus the
given delta when `expires_delta` is truthy, else `now` plus the configured
`ACCESS_TOKEN_EXPIRE_MINUTES`; the result is the signed claim set. -/
def create_access_token (data_sub : Option SubjectValue)
    (expires_delta : Option Int) (now : Int) (cfg : Settings) : SignedToken :=
  let expire : Int :=
    if timedeltaTruthy expires_delta then now + expires_delta.getD 0
    else now + 60 * cfg.ACCESS_TOKEN_EXPIRE_MINUTES
  { payload := { sub := data_sub, exp := expire },
    secret := cfg.SECRET_KEY, alg := cfg.ALGORITHM }

/-- The token issuer as every caller in `router.py` invokes it:
`create_access_token(data={"sub": str(user.user_id)}, expires_delta=ttl)`. -/
def issue (k : Int) (ttl : Option Int) (now : Int) (cfg : Settings) :
    SignedToken :=
  create_access_token (some (SubjectValue.str (pyStrInt k))) ttl now cfg

/-- Embedding of `authenticate_user(db, username, password)` from
`app/api/auth/jwt.py` lines 25–46. `verify` is the hasher's
`verify_password`; `lookupFault` injects the `except Exception` path (any
fault raised by the query or verification is caught and turned into `None`). -/
def authenticate_user (verify : String → String → Bool) (db : List User)
    (username password : String) (lookupFault : Bool) : Option User :=
  if lookupFault then none
  else
    match db.find? (fun u => u.name == username) with
    | none => none
    | some user => if verify password user.password then some user else none

/-- The coercion block of `get_current_user` (`jwt.py` lines 79–91): a string
subject goes through `int(...)` (failure models the caught `ValueError`), a
numeric subject is passed through unchanged. -/
def coerceSubject : SubjectValue → Option Int
  | SubjectValue.str s => pyInt? s
  | SubjectValue.num n => some n

def credentialsRequiredError : HTTPError :=
  { status_code := 401, detail := "認証情報が必要です", wwwAuthenticate := true }

def invalidTokenError : HTTPError :=
  { status_code := 401, detail := "無効な認証トークンです", wwwAuthenticate := true }

def invalidTokenFormatError : HTTPError :=
  { status_code := 401, detail := "無効な認証トークン形式です", wwwAuthenticate := true }

def userNotExistError : HTTPError :=
  { status_code := 401, detail := "ユーザーが存在しません", wwwAuthenticate := true }

/-- The spec's `Unauthenticated` failure kind (section 7: no-token or
unknown-subject), mapped onto the concrete errors the code raises. -/
def IsUnauthenticatedErr (e : HTTPError) : Prop :=
  e = credentialsRequiredError ∨ e = userNotExistError

/-- The spec's `InvalidToken` failure kind (malformed / unverifiable /
non-coercible subject), mapped onto the concrete errors the code raises. -/
def IsInvalidTokenErr (e : HTTPError) : Prop :=
  e = invalidTokenError ∨ e = invalidTokenFormatError

/-- Embedding of `get_current_user(db, token)` from `app/api/auth/jwt.py`
lines 48–111, evaluated at time `now`: reject a missing token, decode and
verify (a `JWTError` yields the invalid-token failure), require a `sub`
claim, coerce it to an integer key, and load the user by that key. -/
def get_current_user (db : List User) (token : Option SignedToken)
    (now : Int) (cfg : Settings) : Except HTTPError User :=
  match token with
  | none => Except.error credentialsRequiredError
  | some tok =>
    match jwt_decode tok cfg.SECRET_KEY cfg.ALGORITHM now with
    | none => Except.error invalidTokenError
    | some payload =>
      match payload.sub with
      | none => Except.error invalidTokenError
      | some sv =>
        match coerceSubject sv with
        | none => Except.error invalidTokenFormatError
        | some uid =>
          match db.find? (fun u => u.user_id == uid) with
          | none => Except.error userNotExistError
          | some user => Except.ok user

def loginFailedErrorToken : HTTPError :=
  { status_code := 401, detail := "ユーザー名またはパスワードが無効です",
    wwwAuthenticate := true }

def loginFailedErrorLogin : HTTPError :=
  { status_code := 401, detail := "ユーザー名またはパスワードが無効です",
    wwwAuthenticate := false }

def passwordMismatchError : HTTPError :=
  { status_code := 400, detail := "パスワードが一致しません", wwwAuthenticate := false }

def duplicateNameError : HTTPError :=
  { status_code := 400, detail := "このユーザー名は既に使用されています",
    wwwAuthenticate := false }

/-- The 500 raised when the registration commit faults; `msg` is `str(e)` of
the underlying exception, interpolated into the detail. -/
def persistenceError (msg : String) : HTTPError :=
  { status_code := 500,
    detail := "ユーザー登録中にエラーが発生しました: " ++ msg,
    wwwAuthenticate := false }

/-- Update of `user.last_login_at = datetime.utcnow(); db.commit()` on the
stored row addressed by the user's key. -/
def updateLastLogin (db : List User) (uid : Int) (now : Int) : List User :=
  db.map (fun u => if u.user_id == uid then { u with last_login_at := some now } else u)

/-- Embedding of `login_for_access_token` (`POST /auth/token`,
`app/api/auth/router.py` lines 23–70): authenticate; on failure raise 401
with the `WWW-Authenticate` header; on success best-effort update
`last_login_at` (`tsFault` injects a commit failure, answered by
`db.rollback()`, leaving storage unchanged), then issue a token for the
user's key with the configured TTL and return the response payload.
Returns the post-request storage state together with the outcome. -/
def login_for_access_token (verify : String → String → Bool) (db : List User)
    (username password : String) (lookupFault tsFault : Bool) (now : Int)
    (cfg : Settings) : List User × Except HTTPError TokenResponse :=
  match authenticate_user verify db username password lookupFault with
  | none => (db, Except.error loginFailedErrorToken)
  | some user =>
    let db' := if tsFault then db else updateLastLogin db user.user_id now
    let access_token :=
      create_access_token (some (SubjectValue.str (pyStrInt user.user_id)))
        (some (60 * cfg.ACCESS_TOKEN_EXPIRE_MINUTES)) now cfg
    (db', Except.ok
      { access_token := access_token, token_type := "bearer",
        user_id := user.user_id, user_name := user.name })

/-- Embedding of `login` (`POST /auth/login`, `app/api/auth/router.py`
lines 72–119): same flow as `login_for_access_token`, except its 401 is
raised without the `WWW-Authenticate` header. -/
def login (verify : String → String → Bool) (db : List User)
    (username password : String) (lookupFault tsFault : Bool) (now : Int)
    (cfg : Settings) : List User × Except HTTPError TokenResponse :=
  match authenticate_user verify db username password lookupFault with
  | none => (db, Except.error loginFailedErrorLogin)
  | some user =>
    let db' := if tsFault then db else updateLastLogin db user.user_id now
    let access_token :=
      create_access_token (some (SubjectValue.str (pyStrInt user.user_id)))
        (some (60 * cfg.ACCESS_TOKEN_EXPIRE_MINUTES)) now cfg
    (db', Except.ok
      { access_token := access_token, token_type := "bearer",
        user_id := user.user_id, user_name := user.name })

/-- The request body of `POST /auth/register` (schema `UserCreate`, fields as
used by `register_user`). -/
structure UserCreate where
  name : String
  password : String
  confirm_password : String
  categories : List String
deriving DecidableEq, Repr

/-- Category encoding of `register_user`:
`",".join(user_data.categories) if user_data.categories else ""` — an empty
list is falsy and encodes as the empty string. -/
def joinCategories (cats : List String) : String :=
  if cats.isEmpty then "" else String.intercalate "," cats

/-- Embedding of `register_user` (`POST /auth/register`,
`app/api/auth/router.py` lines 122–190): reject a password/confirmation
mismatch (400), then a duplicate name (400) — both before any write; then
construct the new row (hashed password, joined categories, zero points,
creation-time `last_login_at`, storage-assigned key `nextId`) and commit.
`persistFault = some msg` injects a commit exception with message `msg`: the
handler rolls back (storage unchanged) and raises 500. On success the new row
is appended and a token for the new key is issued and returned. -/
def register_user (hash : String → String) (db : List User) (nextId : Int)
    (persistFault : Option String) (u : UserCreate) (now : Int)
    (cfg : Settings) : List User × Except HTTPError TokenResponse :=
  if u.password ≠ u.confirm_password then (db, Except.error passwordMismatchError)
  else if (db.find? (fun x => x.name == u.name)).isSome then
    (db, Except.error duplicateNameError)
  else
    match persistFault with
    | some msg => (db, Except.error (persistenceError msg))
    | none =>
      let newUser : User :=
        { user_id := nextId, name := u.name, password := hash u.password,
          categories := joinCategories u.categories, point_total := 0,
          last_login_at := some now }
      let access_token :=
        create_access_token (some (SubjectValue.str (pyStrInt nextId)))
          (some (60 * cfg.ACCESS_TOKEN_EXPIRE_MINUTES)) now cfg
      (db ++ [newUser], Except.ok
        { access_token := access_token, token_type := "bearer",
          user_id := nextId, user_name := u.name })


/-- A sample deployment configuration, used to instantiate theorems on
concrete inputs. -/
def sampleSettings : Settings :=
  { SECRET_KEY := "secret", ALGORITHM := "HS256",
    ACCESS_TOKEN_EXPIRE_MINUTES := 30 }

/-- A sample stored user row. -/
def sampleAlice : User :=
  { user_id := 1, name := "alice", password := "Hsecret", categories := "x",
    point_total := 0, last_login_at := some 0 }

/-- A sample hasher (prepend a tag), standing in for the opaque
`get_password_hash`. -/
def sampleHash (p : String) : String := "H" ++ p

/-- The verifier matching `sampleHash`, standing in for `verify_password`. -/
def sampleVerify (p stored : String) : Bool := stored == "H" ++ p

/-- A token carrying subject `s` and expiry `e`, signed under `cfg` — the
shape `create_access_token` produces, for stating its postcondition. -/
def signedWith (s : Option SubjectValue) (e : Int) (cfg : Settings) :
    SignedToken :=
  { payload := { sub := s, exp := e },
    secret := cfg.SECRET_KEY, alg := cfg.ALGORITHM }


/-- The spec's `Subject` tag (design note, section 9): `Numeric` subjects are
the integer-typed subjects and the numeric-looking strings (those CPython
`int` accepts); everything else is `NonNumeric`. -/
def SubjectNumeric : SubjectValue → Prop
  | SubjectValue.str s => (pyInt? s).isSome = true
  | SubjectValue.num _ => True

/-- The success body every endpoint composes:
`{access_token, token_type: "bearer", user_id, user_name}`. -/
def bearerResponse (tok : SignedToken) (uid : Int) (nm : String) :
    TokenResponse :=
  { access_token := tok, token_type := "bearer", user_id := uid,
    user_name := nm }

theorem dropWhile_eq_self_of_none {p : Char → Bool} {l : List Char}
    (h : ∀ c ∈ l, p c = false) : l.dropWhile p = l := by
  cases l with
  | nil => rfl
  | cons c cs =>
    rw [List.dropWhile_cons_of_neg]
    simp [h c (by simp)]

theorem pyStrip_eq_self {l : List Char} (h : ∀ c ∈ l, isPySpace c = false) :
    pyStrip l = l := by
  unfold pyStrip
  rw [dropWhile_eq_self_of_none h,
    dropWhile_eq_self_of_none (fun c hc => h c (List.mem_reverse.mp hc)),
    List.reverse_reverse]

theorem digitChar_isDigit {d : Nat} (h : d < 10) :
    (Char.ofNat (48 + d)).isDigit = true := by
  interval_cases d <;> decide

theorem digitChar_toNat {d : Nat} (h : d < 10) :
    (Char.ofNat (48 + d)).toNat = 48 + d := by
  interval_cases d <;> decide

theorem isDigit_not_space {c : Char} (h : c.isDigit = true) :
    isPySpace c = false := by
  by_contra hc
  rw [Bool.not_eq_false] at hc
  simp only [isPySpace, Bool.or_eq_true, decide_eq_true_eq] at hc
  rcases hc with ((((rfl | rfl) | rfl) | rfl) | rfl) | rfl <;>
    exact absurd h (by decide)

theorem natDecimal_ne_nil (n : Nat) : natDecimal n ≠ [] := by
  rw [natDecimal]
  split <;> simp

theorem natDecimal_digits (n : Nat) : ∀ c ∈ natDecimal n, c.isDigit = true := by
  induction n using Nat.strong_induction_on with
  | _ n ih =>
    rw [natDecimal]
    split
    · rename_i h
      intro c hc
      simp only [List.mem_singleton] at hc
      subst hc
      exact digitChar_isDigit h
    · rename_i h
      intro c hc
      rw [List.mem_append] at hc
      rcases hc with hc | hc
      · exact ih (n / 10) (Nat.div_lt_self (by omega) (by omega)) c hc
      · simp only [List.mem_singleton] at hc
        subst hc
        exact digitChar_isDigit (Nat.mod_lt n (by omega))

theorem pyIntLoop_digits {l : List Char} (h : ∀ c ∈ l, c.isDigit = true)
    (acc : Nat) :
    pyIntLoop acc l = some (l.foldl (fun a c => a * 10 + (c.toNat - 48)) acc) := by
  induction l generalizing acc with
  | nil => rfl
  | cons c cs ih =>
    have hc : c.isDigit = true := h c (by simp)
    rw [pyIntLoop.eq_def]
    simp only [hc, if_true, List.foldl_cons]
    exact ih (fun x hx => h x (by simp [hx])) _

theorem natDecimal_foldl (n : Nat) : ∀ acc : Nat,
    (natDecimal n).foldl (fun a c => a * 10 + (c.toNat - 48)) acc =
      acc * 10 ^ (natDecimal n).length + n := by
  induction n using Nat.strong_induction_on with
  | _ n ih =>
    intro acc
    rw [natDecimal]
    split
    · rename_i h
      simp only [List.foldl_cons, List.foldl_nil, digitChar_toNat h,
        List.length_cons, List.length_nil, Nat.zero_add, pow_one]
      omega
    · rename_i h
      rw [List.foldl_append, List.foldl_cons, List.foldl_nil,
        ih (n / 10) (Nat.div_lt_self (by omega) (by omega)) acc,
        digitChar_toNat (Nat.mod_lt n (by omega))]
      simp only [List.length_append, List.length_cons, List.length_nil,
        Nat.zero_add]
      have h10 : n / 10 * 10 + n % 10 = n := by omega
      calc (acc * 10 ^ (natDecimal (n / 10)).length + n / 10) * 10 +
            (48 + n % 10 - 48)
          = acc * (10 ^ (natDecimal (n / 10)).length * 10) +
            (n / 10 * 10 + n % 10) := by
            have : 48 + n % 10 - 48 = n % 10 := by omega
            rw [this]; ring
        _ = acc * 10 ^ ((natDecimal (n / 10)).length + 1) + n := by
            rw [h10, ← pow_succ]

theorem pyIntDigits_natDecimal (n : Nat) :
    pyIntDigits (natDecimal n) = some n := by
  have hd := natDecimal_digits n
  have hfold := natDecimal_foldl n 0
  cases hne : natDecimal n with
  | nil => exact absurd hne (natDecimal_ne_nil n)
  | cons c cs =>
    rw [hne] at hd hfold
    have hc : c.isDigit = true := hd c (by simp)
    rw [pyIntDigits, if_pos hc,
      pyIntLoop_digits (fun x hx => hd x (by simp [hx]))]
    rw [List.foldl_cons] at hfold
    simp only [Nat.zero_mul, Nat.zero_add] at hfold
    rw [hfold]

theorem pySignParse_digits {c : Char} {cs : List Char} (hc : c.isDigit = true) :
    pySignParse (c :: cs) = (pyIntDigits (c :: cs)).map Int.ofNat := by
  have hplus : ¬(c = '+') := fun he => by subst he; exact absurd hc (by decide)
  have hminus : ¬(c = '-') := fun he => by subst he; exact absurd hc (by decide)
  simp only [pySignParse, if_neg hplus, if_neg hminus]

theorem pyInt_pyStrInt (k : Int) : pyInt? (pyStrInt k) = some k := by
  cases k with
  | ofNat n =>
    have hd := natDecimal_digits n
    have hdata : (pyStrInt (Int.ofNat n)).data = natDecimal n := rfl
    unfold pyInt?
    rw [hdata, pyStrip_eq_self (fun c hc => isDigit_not_space (hd c hc))]
    cases hne : natDecimal n with
    | nil => exact absurd hne (natDecimal_ne_nil n)
    | cons c cs =>
      rw [hne] at hd
      rw [pySignParse_digits (hd c (by simp)), ← hne, pyIntDigits_natDecimal]
      rfl
  | negSucc m =>
    have hd := natDecimal_digits (m + 1)
    have hdata : (pyStrInt (Int.negSucc m)).data = '-' :: natDecimal (m + 1) := rfl
    have hsp : ∀ c ∈ '-' :: natDecimal (m + 1), isPySpace c = false := by
      intro c hc
      rcases List.mem_cons.mp hc with hc | hc
      · subst hc; decide
      · exact isDigit_not_space (hd c hc)
    unfold pyInt?
    rw [hdata, pyStrip_eq_self hsp]
    simp [pySignParse, pyIntDigits_natDecimal, Int.negSucc_eq]

/-- C6: the credential authenticator is total: with no infrastructure fault it
returns `some u` exactly when the lookup by exact name finds `u` and the
supplied password verifies against `u`'s stored hash; with an underlying
lookup fault it returns `none` — by its `Option` type it never propagates an
error, so authentication failure and infrastructure failure are observably
identical to the caller. -/
theorem authenticate_user_total (verify : String → String → Bool)
    (db : List User) (username password : String) :
    (∀ u, authenticate_user verify db username password false = some u ↔
      (db.find? (fun x => x.name == username) = some u ∧
        verify password u.password = true)) ∧
    authenticate_user verify db username password true = none := by
  refine ⟨fun u => ?_, by simp [authenticate_user]⟩
  unfold authenticate_user
  simp only [Bool.false_eq_true, if_false]
  cases hfind : db.find? (fun x => x.name == username) with
  | none => simp
  | some v =>
    by_cases hv : verify password v.password
    · simp only [if_pos hv, Option.some.injEq]
      constructor
      · rintro rfl
        exact ⟨rfl, hv⟩
      · rintro ⟨h1, h2⟩
        exact h1
    · simp only [if_neg hv]
      constructor
      · intro h
        exact absurd h (by simp)
      · rintro ⟨h1, h2⟩
        obtain rfl := Option.some.inj h1
        exact absurd h2 hv

/-- Witness for `authenticate_user_total` at a concrete store: looking up
`alice` with the right password authenticates her, and an injected lookup
fault yields `none`. -/
theorem authenticate_user_total_witness :
    authenticate_user sampleVerify [sampleAlice] "alice" "secret" false =
      some sampleAlice ∧
    authenticate_user sampleVerify [sampleAlice] "alice" "secret" true = none := by
  constructor
  · exact ((authenticate_user_total sampleVerify [sampleAlice] "alice"
      "secret").1 sampleAlice).mpr ⟨by decide, by decide⟩
  · exact (authenticate_user_total sampleVerify [sampleAlice] "alice"
      "secret").2

/-- C7: a successful registration persists exactly one new row whose display
name is the given name, whose password field is the hash of the given
password, whose point total is 0, whose `last_login_at` is the creation time,
and whose categories are the comma-joined category sequence in order; the
empty sequence encodes as the empty string, and the comma join agrees with
`String.intercalate`. -/
theorem register_user_success (hash : String → String) (db : List User)
    (nextId : Int) (u : UserCreate) (now : Int) (cfg : Settings)
    (hpw : u.password = u.confirm_password)
    (hname : (db.find? (fun x => x.name == u.name)).isSome = false) :
    register_user hash db nextId none u now cfg =
      (db ++
        [{ user_id := nextId, name := u.name, password := hash u.password,
           categories := joinCategories u.categories, point_total := 0,
           last_login_at := some now }],
        Except.ok
          { access_token :=
              issue nextId (some (60 * cfg.ACCESS_TOKEN_EXPIRE_MINUTES)) now cfg,
            token_type := "bearer", user_id := nextId, user_name := u.name }) ∧
    joinCategories u.categories = String.intercalate "," u.categories ∧
    joinCategories [] = "" := by
  refine ⟨?_, ?_, rfl⟩
  · unfold register_user
    rw [if_neg (by simp [hpw]), if_neg (by simp [hname])]
    rfl
  · unfold joinCategories
    cases u.categories with
    | nil => rfl
    | cons c cs => rw [if_neg (by simp)]

/-- Witness for `register_user_success`: registering `bob` into a store that
only holds `alice` appends exactly the constructed row and returns the
composed response. -/
theorem register_user_success_witness :
    register_user sampleHash [sampleAlice] 2 none
        { name := "bob", password := "pw", confirm_password := "pw",
          categories := ["x", "y"] } 100 sampleSettings =
      ([sampleAlice,
        { user_id := 2, name := "bob", password := sampleHash "pw",
          categories := joinCategories ["x", "y"], point_total := 0,
          last_login_at := some 100 }],
        Except.ok
          { access_token := issue 2 (some (60 * 30)) 100 sampleSettings,
            token_type := "bearer", user_id := 2, user_name := "bob" }) := by
  have h := (register_user_success sampleHash [sampleAlice] 2
    { name := "bob", password := "pw", confirm_password := "pw",
      categories := ["x", "y"] } 100 sampleSettings rfl (by decide)).1
  rw [h]
  rfl

/-- C4: registration failure taxonomy and atomicity: a password/confirmation
mismatch fails `PasswordMismatch` (400) with storage unchanged; otherwise a
name already present fails `DuplicateName` (400) with storage unchanged; a
persistence fault during the create step is rolled back and fails
`PersistenceFailure` (500) carrying the fault detail; and in every failure
case the returned storage state equals the input state — no user row is
created. -/
theorem register_user_failure_taxonomy (hash : String → String)
    (db : List User) (nextId : Int) (pf : Option String) (u : UserCreate)
    (now : Int) (cfg : Settings) :
    (u.password ≠ u.confirm_password →
      register_user hash db nextId pf u now cfg =
        (db, Except.error passwordMismatchError)) ∧
    (u.password = u.confirm_password →
      (db.find? (fun x => x.name == u.name)).isSome = true →
      register_user hash db nextId pf u now cfg =
        (db, Except.error duplicateNameError)) ∧
    (∀ msg, u.password = u.confirm_password →
      (db.find? (fun x => x.name == u.name)).isSome = false →
      register_user hash db nextId (some msg) u now cfg =
        (db, Except.error (persistenceError msg))) ∧
    (∀ e, (register_user hash db nextId pf u now cfg).2 = Except.error e →
      (register_user hash db nextId pf u now cfg).1 = db) := by
  refine ⟨?_, ?_, ?_, ?_⟩
  · intro hne
    unfold register_user
    rw [if_pos hne]
  · intro hpw hdup
    unfold register_user
    rw [if_neg (by simp [hpw]), if_pos hdup]
  · intro msg hpw hdup
    unfold register_user
    rw [if_neg (by simp [hpw]), if_neg (by simp [hdup])]
  · intro e herr
    unfold register_user at herr ⊢
    by_cases h1 : u.password ≠ u.confirm_password
    · rw [if_pos h1]
    · rw [if_neg h1] at herr ⊢
      by_cases h2 : (db.find? (fun x => x.name == u.name)).isSome = true
      · rw [if_pos h2]
      · rw [if_neg h2] at herr ⊢
        cases pf with
        | none => simp at herr
        | some msg => rfl

/-- Witness for `register_user_failure_taxonomy`: the password-mismatch
register call from the spec's example (`register("alice","p1","p2",[])`)
fails with the 400 mismatch error and creates no row; a duplicate `alice`
fails with the 400 duplicate error; an injected commit fault fails with the
500 persistence error; all leave the store unchanged. -/
theorem register_user_failure_taxonomy_witness :
    register_user sampleHash [] 1 none
        { name := "alice", password := "p1", confirm_password := "p2",
          categories := [] } 0 sampleSettings =
      ([], Except.error passwordMismatchError) ∧
    register_user sampleHash [sampleAlice] 2 none
        { name := "alice", password := "p", confirm_password := "p",
          categories := [] } 0 sampleSettings =
      ([sampleAlice], Except.error duplicateNameError) ∧
    register_user sampleHash [sampleAlice] 2 (some "db down")
        { name := "bob", password := "p", confirm_password := "p",
          categories := [] } 0 sampleSettings =
      ([sampleAlice], Except.error (persistenceError "db down")) := by
  refine ⟨?_, ?_, ?_⟩
  · exact (register_user_failure_taxonomy sampleHash [] 1 none
      { name := "alice", password := "p1", confirm_password := "p2",
        categories := [] } 0 sampleSettings).1 (by decide)
  · exact (register_user_failure_taxonomy sampleHash [sampleAlice] 2 none
      { name := "alice", password := "p", confirm_password := "p",
        categories := [] } 0 sampleSettings).2.1 rfl (by decide)
  · exact (register_user_failure_taxonomy sampleHash [sampleAlice] 2
      (some "db down")
      { name := "bob", password := "p", confirm_password := "p",
        categories := [] } 0 sampleSettings).2.2.1 "db down" rfl (by decide)

/-- C8 (amended): the issued token's claims are exactly the subject — the
stringified identity key — and an expiry of `now + ttl` for every nonzero
TTL; when no TTL is given, or when the given TTL is zero (`timedelta(0)` is
falsy, so `if expires_delta:` takes the default branch), the expiry is `now`
plus the configured `ACCESS_TOKEN_EXPIRE_MINUTES`; issuing is a pure
function of its inputs and configuration, with no side effect beyond
signing. -/
theorem issue_postcondition (k d now : Int) (cfg : Settings) :
    (d ≠ 0 →
      issue k (some d) now cfg =
        signedWith (some (SubjectValue.str (pyStrInt k))) (now + d) cfg) ∧
    issue k none now cfg =
      signedWith (some (SubjectValue.str (pyStrInt k)))
        (now + 60 * cfg.ACCESS_TOKEN_EXPIRE_MINUTES) cfg ∧
    issue k (some 0) now cfg =
      signedWith (some (SubjectValue.str (pyStrInt k)))
        (now + 60 * cfg.ACCESS_TOKEN_EXPIRE_MINUTES) cfg := by
  refine ⟨fun hd => ?_, rfl, rfl⟩
  simp [issue, create_access_token, timedeltaTruthy, signedWith, hd]

/-- Witness for `issue_postcondition`: a 60-second TTL stamps expiry
`now + 60`; omitting the TTL stamps `now + 60 * 30` under the sample
30-minute configuration. -/
theorem issue_postcondition_witness :
    issue 1 (some 60) 0 sampleSettings =
      signedWith (some (SubjectValue.str (pyStrInt 1))) (0 + 60)
        sampleSettings ∧
    issue 1 none 0 sampleSettings =
      signedWith (some (SubjectValue.str (pyStrInt 1))) (0 + 60 * 30)
        sampleSettings := by
  constructor
  · exact (issue_postcondition 1 60 0 sampleSettings).1 (by decide)
  · exact (issue_postcondition 1 0 0 sampleSettings).2.1

/-- C8 counterexample: under the sample 30-minute configuration, a token
issued with an explicit zero TTL carries expiry `now + 1800`, not
`now + 0` — `timedelta(0)` is falsy, so the issuer silently replaces a zero
TTL by the configured default, contradicting "expiry equals the current time
plus the TTL" for every TTL. -/
theorem issue_zero_ttl_cex :
    (issue 1 (some 0) 0 sampleSettings).payload.exp = 1800 ∧
    (issue 1 (some 0) 0 sampleSettings).payload.exp ≠ 0 + 0 := by
  exact ⟨by decide, by decide⟩

/-- C5: login timestamp resilience: when the credentials authenticate to user
`u`, a forced failure of the best-effort `last_login_at` update does not fail
the login — both login endpoints still return `ok` with a token issued for
`u`'s identity key under the configured TTL — and the endpoint outcome is
identical whether or not the timestamp write faults: the fault is rolled
back and never surfaced; success is decided by credential verification
alone. -/
theorem login_timestamp_resilience (verify : String → String → Bool)
    (db : List User) (username password : String) (now : Int) (cfg : Settings)
    (u : User)
    (hauth : authenticate_user verify db username password false = some u) :
    (∀ tsFault,
      (login verify db username password false tsFault now cfg).2 =
        Except.ok
          { access_token :=
              issue u.user_id (some (60 * cfg.ACCESS_TOKEN_EXPIRE_MINUTES)) now cfg,
            token_type := "bearer", user_id := u.user_id,
            user_name := u.name }) ∧
    (∀ tsFault,
      (login_for_access_token verify db username password false tsFault now cfg).2 =
        Except.ok
          { access_token :=
              issue u.user_id (some (60 * cfg.ACCESS_TOKEN_EXPIRE_MINUTES)) now cfg,
            token_type := "bearer", user_id := u.user_id,
            user_name := u.name }) ∧
    (∀ tsFault,
      (login verify db username password false tsFault now cfg).2 =
        (login verify db username password false false now cfg).2) := by
  refine ⟨fun tsFault => ?_, fun tsFault => ?_, fun tsFault => ?_⟩ <;>
    simp [login, login_for_access_token, hauth, issue]

/-- Witness for `login_timestamp_resilience`: with the timestamp write forced
to fail, logging in `alice` with the correct password still returns the
bearer response carrying her token. -/
theorem login_timestamp_resilience_witness :
    (login sampleVerify [sampleAlice] "alice" "secret" false true 50
        sampleSettings).2 =
      Except.ok
        { access_token :=
            issue sampleAlice.user_id (some (60 * 30)) 50 sampleSettings,
          token_type := "bearer", user_id := sampleAlice.user_id,
          user_name := sampleAlice.name } := by
  exact (login_timestamp_resilience sampleVerify [sampleAlice] "alice"
    "secret" 50 sampleSettings sampleAlice (by decide)).1 true

/-- C9 (amended): `POST /auth/token` and `POST /auth/login` are equivalent in
storage effect and success behaviour — for every store and input they leave
the same post-request storage state and return the same success payload —
and on invalid credentials both fail with status 401 and the same generic
credentials-invalid detail; the failure outcomes are nonetheless not
literally identical, because only `/auth/token` attaches the
`WWW-Authenticate: Bearer` challenge header. -/
theorem token_login_equiv_mod_header (verify : String → String → Bool)
    (db : List User) (username password : String) (lookupFault tsFault : Bool)
    (now : Int) (cfg : Settings) :
    (login_for_access_token verify db username password lookupFault tsFault
        now cfg).1 =
      (login verify db username password lookupFault tsFault now cfg).1 ∧
    (∀ p,
      (login_for_access_token verify db username password lookupFault tsFault
          now cfg).2 = Except.ok p ↔
      (login verify db username password lookupFault tsFault now cfg).2 =
        Except.ok p) ∧
    (∀ e1 e2,
      (login_for_access_token verify db username password lookupFault tsFault
          now cfg).2 = Except.error e1 →
      (login verify db username password lookupFault tsFault now cfg).2 =
        Except.error e2 →
      e1.status_code = 401 ∧ e2.status_code = 401 ∧ e1.detail = e2.detail ∧
      e1.wwwAuthenticate = true ∧ e2.wwwAuthenticate = false) := by
  cases hauth : authenticate_user verify db username password lookupFault with
  | none =>
    have ht : (login_for_access_token verify db username password lookupFault
        tsFault now cfg).2 = Except.error loginFailedErrorToken := by
      simp [login_for_access_token, hauth]
    have hl : (login verify db username password lookupFault tsFault
        now cfg).2 = Except.error loginFailedErrorLogin := by
      simp [login, hauth]
    refine ⟨by simp [login, login_for_access_token, hauth],
      fun p => ?_, fun e1 e2 h1 h2 => ?_⟩
    · rw [ht, hl]
      simp
    · rw [ht] at h1
      rw [hl] at h2
      obtain rfl := Except.error.inj h1
      obtain rfl := Except.error.inj h2
      exact ⟨rfl, rfl, rfl, rfl, rfl⟩
  | some u =>
    refine ⟨by simp [login, login_for_access_token, hauth],
      fun p => by simp [login, login_for_access_token, hauth],
      fun e1 e2 h1 h2 => ?_⟩
    simp [login_for_access_token, hauth] at h1

/-- C9 counterexample: with an empty store, the two endpoints' failure
outcomes for the same bad credentials are not equal, so the handlers are not
behaviorally identical: both reject with 401 and the same detail, but only
`/auth/token` carries the `WWW-Authenticate: Bearer` challenge header. -/
theorem token_login_not_identical_cex :
    (login_for_access_token (fun _ _ => false) [] "a" "b" false false 0
        sampleSettings).2 = Except.error loginFailedErrorToken ∧
    (login (fun _ _ => false) [] "a" "b" false false 0 sampleSettings).2 =
      Except.error loginFailedErrorLogin ∧
    (login_for_access_token (fun _ _ => false) [] "a" "b" false false 0
        sampleSettings).2 ≠
      (login (fun _ _ => false) [] "a" "b" false false 0 sampleSettings).2 := by
  refine ⟨rfl, rfl, fun h => ?_⟩
  rw [show (login_for_access_token (fun _ _ => false) [] "a" "b" false false 0
      sampleSettings).2 = Except.error loginFailedErrorToken from rfl,
    show (login (fun _ _ => false) [] "a" "b" false false 0
      sampleSettings).2 = Except.error loginFailedErrorLogin from rfl] at h
  exact absurd (Except.error.inj h) (by decide)

/-- C10: response self-consistency: every successful response of the
token-login, login and register endpoints has `token_type = "bearer"`, the
authenticated (resp. newly created) user's identity key and display name as
`user_id` and `user_name`, and an access token whose subject claim is
exactly the decimal string of that same `user_id` — the token and the
payload always identify the same user. -/
theorem response_self_consistency (verify : String → String → Bool)
    (hash : String → String) (db : List User) (username password : String)
    (lookupFault tsFault : Bool) (nextId : Int) (pf : Option String)
    (uc : UserCreate) (now : Int) (cfg : Settings) :
    (∀ p,
      (login_for_access_token verify db username password lookupFault tsFault
          now cfg).2 = Except.ok p →
      p.token_type = "bearer" ∧
      p.access_token.payload.sub =
        some (SubjectValue.str (pyStrInt p.user_id)) ∧
      ∃ u, authenticate_user verify db username password lookupFault =
          some u ∧ p.user_id = u.user_id ∧ p.user_name = u.name) ∧
    (∀ p,
      (login verify db username password lookupFault tsFault now cfg).2 =
        Except.ok p →
      p.token_type = "bearer" ∧
      p.access_token.payload.sub =
        some (SubjectValue.str (pyStrInt p.user_id)) ∧
      ∃ u, authenticate_user verify db username password lookupFault =
          some u ∧ p.user_id = u.user_id ∧ p.user_name = u.name) ∧
    (∀ p db', register_user hash db nextId pf uc now cfg =
        (db', Except.ok p) →
      p.token_type = "bearer" ∧
      p.access_token.payload.sub =
        some (SubjectValue.str (pyStrInt p.user_id)) ∧
      ∃ nu, db' = db ++ [nu] ∧ p.user_id = nu.user_id ∧
        p.user_name = nu.name) := by
  refine ⟨fun p hp => ?_, fun p hp => ?_, fun p db' hp => ?_⟩
  · cases hauth : authenticate_user verify db username password lookupFault with
    | none => simp [login_for_access_token, hauth] at hp
    | some u =>
      have h3 : (login_for_access_token verify db username password
          lookupFault tsFault now cfg).2 =
          Except.ok (bearerResponse
            (issue u.user_id (some (60 * cfg.ACCESS_TOKEN_EXPIRE_MINUTES))
              now cfg) u.user_id u.name) := by
        simp [login_for_access_token, hauth, issue, bearerResponse]
      rw [h3] at hp
      obtain rfl := Except.ok.inj hp
      exact ⟨rfl, rfl, u, rfl, rfl, rfl⟩
  · cases hauth : authenticate_user verify db username password lookupFault with
    | none => simp [login, hauth] at hp
    | some u =>
      have h3 : (login verify db username password lookupFault tsFault
          now cfg).2 =
          Except.ok (bearerResponse
            (issue u.user_id (some (60 * cfg.ACCESS_TOKEN_EXPIRE_MINUTES))
              now cfg) u.user_id u.name) := by
        simp [login, hauth, issue, bearerResponse]
      rw [h3] at hp
      obtain rfl := Except.ok.inj hp
      exact ⟨rfl, rfl, u, rfl, rfl, rfl⟩
  · unfold register_user at hp
    by_cases h1 : uc.password ≠ uc.confirm_password
    · rw [if_pos h1] at hp
      simp at hp
    · rw [if_neg h1] at hp
      by_cases h2 : (db.find? (fun x => x.name == uc.name)).isSome = true
      · rw [if_pos h2] at hp
        simp at hp
      · rw [if_neg h2] at hp
        cases pf with
        | some msg => simp at hp
        | none =>
          have hdb :
              db ++
                [{ user_id := nextId, name := uc.name,
                   password := hash uc.password,
                   categories := joinCategories uc.categories,
                   point_total := 0, last_login_at := some now }] = db' :=
            congrArg Prod.fst hp
          have hok :
              (Except.ok (bearerResponse
                (issue nextId (some (60 * cfg.ACCESS_TOKEN_EXPIRE_MINUTES))
                  now cfg) nextId uc.name) :
                Except HTTPError TokenResponse) = Except.ok p :=
            congrArg Prod.snd hp
          obtain rfl := Except.ok.inj hok
          exact ⟨rfl, rfl, _, hdb.symm, rfl, rfl⟩

/-- Witness for `response_self_consistency`: the successful login of `alice`
returns the bearer payload for user 1 whose embedded token subject is the
decimal string of that same key. -/
theorem response_self_consistency_witness :
    (bearerResponse (issue 1 (some (60 * 30)) 50 sampleSettings) 1
        "alice").access_token.payload.sub =
      some (SubjectValue.str (pyStrInt 1)) ∧
    ∃ u, authenticate_user sampleVerify [sampleAlice] "alice" "secret" false =
        some u ∧ (1 : Int) = u.user_id ∧ "alice" = u.name := by
  have h := (response_self_consistency sampleVerify sampleHash [sampleAlice]
    "alice" "secret" false false 2 none
    { name := "bob", password := "p", confirm_password := "p",
      categories := [] } 50 sampleSettings).2.1
    (bearerResponse (issue 1 (some (60 * 30)) 50 sampleSettings) 1 "alice")
    rfl
  exact ⟨h.2.1, h.2.2⟩

/-- C1: round trip with expiry: resolving a token issued for identity key `k`
with a TTL that has not elapsed at resolution time returns the user whose
identity key is `k`, provided such a user exists in storage; and a token
issued with the already-elapsed TTL of −1 second always fails resolution
with the invalid-token failure (one of the spec's
`Unauthenticated`/`InvalidToken` kinds), never resolving to any user. -/
theorem resolve_issue_roundtrip (db : List User) (k t now rt : Int)
    (cfg : Settings) :
    ((∃ u ∈ db, u.user_id = k) → now ≤ rt → rt < now + t →
      ∃ u, get_current_user db (some (issue k (some t) now cfg)) rt cfg =
          Except.ok u ∧ u.user_id = k) ∧
    (now ≤ rt →
      get_current_user db (some (issue k (some (-1)) now cfg)) rt cfg =
        Except.error invalidTokenError ∧
      IsInvalidTokenErr invalidTokenError) := by
  constructor
  · intro hex hle hlt
    have ht : t ≠ 0 := by omega
    have hrle : rt ≤ now + t := le_of_lt hlt
    have hdec : jwt_decode (issue k (some t) now cfg) cfg.SECRET_KEY
        cfg.ALGORITHM rt =
        some { sub := some (SubjectValue.str (pyStrInt k)), exp := now + t } := by
      simp [issue, create_access_token, jwt_decode, timedeltaTruthy, ht, hrle]
    obtain ⟨u0, hu0, hid⟩ := hex
    have hfs : (db.find? (fun u => u.user_id == k)).isSome := by
      rw [List.find?_isSome]
      exact ⟨u0, hu0, by simp [hid]⟩
    obtain ⟨u, hfind⟩ := Option.isSome_iff_exists.mp hfs
    refine ⟨u, ?_, ?_⟩
    · simp only [get_current_user, hdec, coerceSubject, pyInt_pyStrInt, hfind]
    · simpa using List.find?_some hfind
  · intro hle
    have hdec : jwt_decode (issue k (some (-1)) now cfg) cfg.SECRET_KEY
        cfg.ALGORITHM rt = none := by
      simp [issue, create_access_token, jwt_decode, timedeltaTruthy]
      omega
    exact ⟨by simp only [get_current_user, hdec], Or.inl rfl⟩

/-- Witness for `resolve_issue_roundtrip`: with `alice` (key 1) stored, a
60-second token issued at time 0 resolves at time 30 to a user with key 1,
and a −1-second token issued at time 0 fails resolution at time 0 with the
invalid-token error. -/
theorem resolve_issue_roundtrip_witness :
    (∃ u, get_current_user [sampleAlice]
        (some (issue 1 (some 60) 0 sampleSettings)) 30 sampleSettings =
        Except.ok u ∧ u.user_id = 1) ∧
    get_current_user [sampleAlice]
        (some (issue 1 (some (-1)) 0 sampleSettings)) 0 sampleSettings =
      Except.error invalidTokenError := by
  constructor
  · exact (resolve_issue_roundtrip [sampleAlice] 1 60 0 30 sampleSettings).1
      ⟨sampleAlice, by simp, rfl⟩ (by decide) (by decide)
  · exact ((resolve_issue_roundtrip [sampleAlice] 1 (-1) 0 0
      sampleSettings).2 (by decide)).1

/-- C2: resolver failure classification: an absent token fails with the
missing-credential error (`Unauthenticated`); a token whose decode or
signature verification fails, or whose subject claim is absent, fails with
the invalid-token error (`InvalidToken`); a well-formed token whose coerced
subject matches no stored user fails with the user-not-found error (still
`Unauthenticated`) and in particular is never resolved to a different user;
and on success the returned user's identity key equals the token's coerced
subject. -/
theorem get_current_user_classification (db : List User) (now : Int)
    (cfg : Settings) :
    (get_current_user db none now cfg =
        Except.error credentialsRequiredError ∧
      IsUnauthenticatedErr credentialsRequiredError) ∧
    (∀ tok, jwt_decode tok cfg.SECRET_KEY cfg.ALGORITHM now = none →
      get_current_user db (some tok) now cfg =
        Except.error invalidTokenError ∧
      IsInvalidTokenErr invalidTokenError) ∧
    (∀ tok payload,
      jwt_decode tok cfg.SECRET_KEY cfg.ALGORITHM now = some payload →
      payload.sub = none →
      get_current_user db (some tok) now cfg =
        Except.error invalidTokenError) ∧
    (∀ tok payload sv uid,
      jwt_decode tok cfg.SECRET_KEY cfg.ALGORITHM now = some payload →
      payload.sub = some sv → coerceSubject sv = some uid →
      db.find? (fun u => u.user_id == uid) = none →
      get_current_user db (some tok) now cfg =
        Except.error userNotExistError ∧
      IsUnauthenticatedErr userNotExistError) ∧
    (∀ tok payload sv uid u,
      jwt_decode tok cfg.SECRET_KEY cfg.ALGORITHM now = some payload →
      payload.sub = some sv → coerceSubject sv = some uid →
      get_current_user db (some tok) now cfg = Except.ok u →
      u.user_id = uid) := by
  refine ⟨⟨rfl, Or.inl rfl⟩, fun tok hdec => ⟨?_, Or.inl rfl⟩,
    fun tok payload hdec hsub => ?_,
    fun tok payload sv uid hdec hsub hco hfind => ⟨?_, Or.inr rfl⟩,
    fun tok payload sv uid u hdec hsub hco hres => ?_⟩
  · simp only [get_current_user, hdec]
  · simp only [get_current_user, hdec, hsub]
  · simp only [get_current_user, hdec, hsub, hco, hfind]
  · simp only [get_current_user, hdec, hsub, hco] at hres
    cases hfind : db.find? (fun x => x.user_id == uid) with
    | none =>
      rw [hfind] at hres
      simp at hres
    | some v =>
      rw [hfind] at hres
      obtain rfl := Except.ok.inj hres
      simpa using List.find?_some hfind

/-- Witness for `get_current_user_classification` at concrete tokens: no
token, an expired/unverifiable token, a token without a subject, a
well-formed token with an unknown subject, and a successful resolution whose
user key matches the subject. -/
theorem get_current_user_classification_witness :
    get_current_user [] none 0 sampleSettings =
      Except.error credentialsRequiredError ∧
    get_current_user [sampleAlice]
        (some (signedWith none (-1) sampleSettings)) 0 sampleSettings =
      Except.error invalidTokenError ∧
    get_current_user [sampleAlice]
        (some (signedWith none 5 sampleSettings)) 0 sampleSettings =
      Except.error invalidTokenError ∧
    get_current_user [sampleAlice]
        (some (signedWith (some (SubjectValue.num 42)) 5 sampleSettings)) 0
        sampleSettings =
      Except.error userNotExistError ∧
    sampleAlice.user_id = 1 := by
  refine ⟨(get_current_user_classification [] 0 sampleSettings).1.1,
    ?_, ?_, ?_, ?_⟩
  · exact ((get_current_user_classification [sampleAlice] 0
      sampleSettings).2.1 (signedWith none (-1) sampleSettings)
      (by decide)).1
  · exact (get_current_user_classification [sampleAlice] 0
      sampleSettings).2.2.1 (signedWith none 5 sampleSettings)
      { sub := none, exp := 5 } (by decide) rfl
  · exact ((get_current_user_classification [sampleAlice] 0
      sampleSettings).2.2.2.1
      (signedWith (some (SubjectValue.num 42)) 5 sampleSettings)
      { sub := some (SubjectValue.num 42), exp := 5 } (SubjectValue.num 42)
      42 (by decide) rfl rfl (by decide)).1
  · exact (get_current_user_classification [sampleAlice] 0
      sampleSettings).2.2.2.2
      (signedWith (some (SubjectValue.num 1)) 5 sampleSettings)
      { sub := some (SubjectValue.num 1), exp := 5 } (SubjectValue.num 1)
      1 sampleAlice (by decide) rfl rfl rfl

/-- C3: subject coercion is a total tagged step in which exactly the
`Numeric` subjects succeed: integer subjects are accepted as-is, a string
subject goes through the `int` coercion (so every numeric-looking string —
in particular every stringified identity key — is coerced to the integer
key), and a subject the coercion rejects makes the resolver fail with the
invalid-token-format error, an `InvalidToken` failure. -/
theorem coerceSubject_tagged (db : List User) (now : Int) (cfg : Settings) :
    (∀ k : Int, coerceSubject (SubjectValue.str (pyStrInt k)) = some k) ∧
    (∀ s : String, coerceSubject (SubjectValue.str s) = pyInt? s) ∧
    (∀ n : Int, coerceSubject (SubjectValue.num n) = some n) ∧
    (∀ sv, (coerceSubject sv).isSome = true ↔ SubjectNumeric sv) ∧
    (∀ tok payload sv,
      jwt_decode tok cfg.SECRET_KEY cfg.ALGORITHM now = some payload →
      payload.sub = some sv → coerceSubject sv = none →
      get_current_user db (some tok) now cfg =
        Except.error invalidTokenFormatError ∧
      IsInvalidTokenErr invalidTokenFormatError) := by
  refine ⟨fun k => pyInt_pyStrInt k, fun s => rfl, fun n => rfl,
    fun sv => ?_, fun tok payload sv hdec hsub hco => ⟨?_, Or.inr rfl⟩⟩
  · cases sv with
    | str s => simp [coerceSubject, SubjectNumeric]
    | num n => simp [coerceSubject, SubjectNumeric]
  · simp only [get_current_user, hdec, hsub, hco]

/-- Witness for `coerceSubject_tagged`: the string subject "123" coerces to
123, the integer subject 7 passes through unchanged, and a token whose
subject is the non-numeric string "abc" fails resolution with the
invalid-token-format error. -/
theorem coerceSubject_tagged_witness :
    coerceSubject (SubjectValue.str "123") = pyInt? "123" ∧
    pyInt? "123" = some 123 ∧
    coerceSubject (SubjectValue.num 7) = some 7 ∧
    get_current_user [sampleAlice]
        (some (signedWith (some (SubjectValue.str "abc")) 5 sampleSettings))
        0 sampleSettings = Except.error invalidTokenFormatError := by
  refine ⟨(coerceSubject_tagged [] 0 sampleSettings).2.1 "123", by decide,
    (coerceSubject_tagged [] 0 sampleSettings).2.2.1 7, ?_⟩
  exact ((coerceSubject_tagged [sampleAlice] 0 sampleSettings).2.2.2.2
    (signedWith (some (SubjectValue.str "abc")) 5 sampleSettings)
    { sub := some (SubjectValue.str "abc"), exp := 5 }
    (SubjectValue.str "abc") (by decide) rfl (by decide)).1

/-- Witness for `token_login_equiv_mod_header`: for a concrete rejected
login the two endpoints leave the same store, and their failure errors agree
on status 401 and detail while differing exactly in the challenge header. -/
theorem token_login_equiv_mod_header_witness :
    (login_for_access_token (fun _ _ => false) [] "a" "b" false false 0
        sampleSettings).1 =
      (login (fun _ _ => false) [] "a" "b" false false 0 sampleSettings).1 ∧
    (loginFailedErrorToken.status_code = 401 ∧
      loginFailedErrorLogin.status_code = 401 ∧
      loginFailedErrorToken.detail = loginFailedErrorLogin.detail ∧
      loginFailedErrorToken.wwwAuthenticate = true ∧
      loginFailedErrorLogin.wwwAuthenticate = false) := by
  have h := token_login_equiv_mod_header (fun _ _ => false) [] "a" "b" false
    false 0 sampleSettings
  exact ⟨h.1, h.2.2 loginFailedErrorToken loginFailedErrorLogin rfl rfl⟩
